import Mathlib

/-!
Verification development for the LAN_chat peer (`chat_peer.py`).

The program is a peer-to-peer chat process built around a guarded connection
table (`ChatPeer.connections : Dict[int, (socket, ip, port)]`), an id counter,
a `running` flag, a non-reentrant `threading.Lock`, an accept loop, a dialer,
per-connection reader loops, send/terminate commands and a shutdown routine.

We give a shallow embedding of this state and of the operations the claims
concern.  Sockets are modelled by natural-number handles allocated from a
counter `nextSock`; a handle is closed when it is listed in `closedSocks`.
Network effects (whether a connect/send/recv call raises, what bytes a recv
returns) are inputs to each operation.  Raising and catching of exceptions is
translated into the explicit control flow of the corresponding `except`
blocks, and acquiring the non-reentrant `threading.Lock` while it is already
held — which blocks the thread forever in Python — is modelled by returning
`Except.error ()`.
-/

namespace LanChat

/-- A connection record: the tuple `(socket, ip-address, remote listening port)`
stored as a value of `ChatPeer.connections`. -/
structure Conn where
  sock : Nat
  addr : String
  port : Nat
deriving DecidableEq, Repr

/-- The connection table `ChatPeer.connections`: a `Dict[int, ...]`, modelled
as an insertion-ordered association list. -/
abbrev Table := List (Nat × Conn)

/-- Python `self.connections[conn_id]` / `conn_id in self.connections`:
lookup of a key in the table. -/
def lookupConn : Table → Nat → Option Conn
  | [], _ => none
  | (i, c) :: rest, k => if i = k then some c else lookupConn rest k

/-- Python `del self.connections[conn_id]`: remove the entry with that key. -/
def delConn (t : Table) (k : Nat) : Table :=
  t.filter (fun p => p.1 != k)

/-- The mutable state of a `ChatPeer` object, together with the socket world:
`nextSock` is the allocator for socket handles, `closedSocks` lists the
handles on which `close()` has been called, `serverOpen` tracks the listening
socket, and `lockHeld` tracks `self.lock` (a non-reentrant `threading.Lock`). -/
structure State where
  myPort : Nat
  myAddr : String
  connections : Table
  connection_counter : Nat
  running : Bool
  lockHeld : Bool
  nextSock : Nat
  closedSocks : List Nat
  serverOpen : Bool
deriving DecidableEq, Repr

/-- The state of a freshly constructed `ChatPeer(port)`. -/
def initState (port : Nat) (myAddr : String) : State :=
  { myPort := port
    myAddr := myAddr
    connections := []
    connection_counter := 0
    running := true
    lockHeld := false
    nextSock := 0
    closedSocks := []
    serverOpen := true }

/-- Observable I/O effects of an operation, in the order they happen. -/
inductive Ev where
  | sockCreate (s : Nat)
  | connectTry (ip : String) (port : Nat)
  | acceptRet (s : Nat)
  | netSend (s : Nat)
  | netRecv (s : Nat)
  | sockClose (s : Nat)
  | register (id : Nat)
  | spawnReader (id : Nat)
deriving DecidableEq, Repr

/-- Does a list of characters form a nonempty run of decimal digits? -/
def allDigits (t : List Char) : Bool :=
  !t.isEmpty && t.all (fun c => c.isDigit)

/-- Numeric value of a run of decimal digits. -/
def digitsVal (t : List Char) : Nat :=
  t.foldl (fun a c => a * 10 + (c.toNat - 48)) 0

/-- Model of Python `int(s)` as used on handshake payloads, restricted to the
unsigned decimal numerals that the protocol exchanges (`str(port)`): a
nonempty all-digit string parses, anything else raises `ValueError`
(`none`).  Sign and whitespace forms of `int` are irrelevant to the claims. -/
def pyInt (s : String) : Option Nat :=
  if allDigits s.data then some (digitsVal s.data) else none

/-- Split a character list at each dot, keeping empty groups, like
`s.split(".")` does for a one-character separator. -/
def splitDots : List Char → List (List Char)
  | [] => [[]]
  | c :: rest =>
      match splitDots rest with
      | [] => if c = '.' then [[], []] else [[c]]
      | g :: gs => if c = '.' then [] :: g :: gs else (c :: g) :: gs

/-- Model of `socket.inet_aton(ip)` succeeding: the dotted-decimal forms it
accepts (1 to 4 dot-separated decimal parts, each within range for the bytes
it covers).  The hex/octal part forms of `inet_aton` are omitted; no claim
depends on the exact boundary of the accepted set. -/
def inet_aton_ok (s : String) : Bool :=
  match splitDots s.data with
  | [a] => allDigits a && digitsVal a < 4294967296
  | [a, b] => allDigits a && allDigits b &&
      digitsVal a < 256 && digitsVal b < 16777216
  | [a, b, c] => allDigits a && allDigits b && allDigits c &&
      digitsVal a < 256 && digitsVal b < 256 && digitsVal c < 65536
  | [a, b, c, d] => allDigits a && allDigits b && allDigits c && allDigits d &&
      digitsVal a < 256 && digitsVal b < 256 && digitsVal c < 256 &&
      digitsVal d < 256
  | _ => false

/-- Embedding of `ChatPeer.handle_disconnect(conn_id)`: acquires `self.lock`,
and if the id is present closes its socket and deletes the entry in that same
guarded block.  `self.lock` is a non-reentrant `threading.Lock`: acquiring it
while it is already held blocks the thread forever, modelled as
`Except.error ()`.  The transient holding of the lock inside the body is not
reflected in the returned state (the lock is released on exit), so the result
carries `lockHeld` unchanged. -/
def handle_disconnect (st : State) (conn_id : Nat) :
    Except Unit (State × List Ev) :=
  if st.lockHeld then Except.error ()
  else
    match lookupConn st.connections conn_id with
    | some c =>
        Except.ok ({ st with
            closedSocks := c.sock :: st.closedSocks,
            connections := delConn st.connections conn_id },
          [Ev.sockClose c.sock])
    | none => Except.ok (st, [])

/-- Embedding of `ChatPeer.terminate_connection(conn_id)`: under `self.lock`,
reports failure when the id is absent; otherwise closes the socket, deletes
the entry and reports success. -/
def terminate_connection (st : State) (conn_id : Nat) :
    Except Unit (State × Bool × List Ev) :=
  if st.lockHeld then Except.error ()
  else
    match lookupConn st.connections conn_id with
    | none => Except.ok (st, false, [])
    | some c =>
        Except.ok ({ st with
            closedSocks := c.sock :: st.closedSocks,
            connections := delConn st.connections conn_id },
          true, [Ev.sockClose c.sock])

/-- Message payloads: a Python `str` as a list of code points, so that
`len(message)` is the list length while the UTF-8 encoded length can differ. -/
abbrev Msg := List Nat

/-- UTF-8 byte length of one code point. -/
def cpLen (c : Nat) : Nat :=
  if c < 128 then 1 else if c < 2048 then 2 else if c < 65536 then 3 else 4

/-- UTF-8 encoded byte length of a message (`len(message.encode())`). -/
def utf8Len (m : Msg) : Nat :=
  (m.map cpLen).sum

/-- Embedding of `ChatPeer.send_message(conn_id, message)`.  `sendOk` says
whether the underlying `socket.send` call succeeds; when it raises, the
`except` block calls `handle_disconnect(conn_id)` while `self.lock` is still
held by the surrounding `with self.lock:` — `threading.Lock` is not
reentrant, so that inner acquire blocks forever (`Except.error ()`). -/
def send_message (st : State) (conn_id : Nat) (message : Msg) (sendOk : Bool) :
    Except Unit (State × Bool × List Ev) :=
  if message.length > 100 then Except.ok (st, false, [])
  else if st.lockHeld then Except.error ()
  else
    match lookupConn st.connections conn_id with
    | none => Except.ok (st, false, [])
    | some c =>
        if sendOk then
          Except.ok (st, true, [Ev.netSend c.sock])
        else
          match handle_disconnect { st with lockHeld := true } conn_id with
          | Except.error _ => Except.error ()
          | Except.ok (st2, evs) =>
              Except.ok ({ st2 with lockHeld := false }, false,
                Ev.netSend c.sock :: evs)

/-- Network behaviour of one outbound dial: whether `connect` succeeds,
whether the handshake `send` succeeds, and what `recv(1024).decode()` returns
(`none` when `recv` or `decode` raises). -/
structure DialNet where
  connectOk : Bool
  sendOk : Bool
  recvStr : Option String
deriving DecidableEq, Repr

/-- Embedding of `ChatPeer.connect_to_peer(ip, port)`: validates the address with
`inet_aton`, rejects self-connection (`ip == self.get_my_ip() and
port == self.port`) and duplicates, and only then creates a socket,
connects, performs the port handshake and registers the record under
`self.lock`.  Any exception inside the `try` is caught and reported as
failure. -/
def connect_to_peer (st : State) (ip : String) (port : Nat) (net : DialNet) :
    Except Unit (State × Bool × List Ev) :=
  if !(inet_aton_ok ip) then Except.ok (st, false, [])
  else if ip == st.myAddr && port == st.myPort then Except.ok (st, false, [])
  else if st.connections.any (fun p => p.2.addr == ip && p.2.port == port) then
    Except.ok (st, false, [])
  else
    let s := st.nextSock
    let st1 : State := { st with nextSock := s + 1 }
    if !net.connectOk then
      Except.ok (st1, false, [Ev.sockCreate s, Ev.connectTry ip port])
    else if !net.sendOk then
      Except.ok (st1, false, [Ev.sockCreate s, Ev.connectTry ip port, Ev.netSend s])
    else
      match net.recvStr with
      | none =>
          Except.ok (st1, false,
            [Ev.sockCreate s, Ev.connectTry ip port, Ev.netSend s, Ev.netRecv s])
      | some str =>
          match pyInt str with
          | none =>
              Except.ok (st1, false,
                [Ev.sockCreate s, Ev.connectTry ip port, Ev.netSend s, Ev.netRecv s])
          | some theirPort =>
              if st1.lockHeld then Except.error ()
              else
                let cid := st1.connection_counter + 1
                Except.ok ({ st1 with
                    connection_counter := cid,
                    connections :=
                      st1.connections ++ [(cid, ⟨s, ip, theirPort⟩)] }, true,
                  [Ev.sockCreate s, Ev.connectTry ip port, Ev.netSend s,
                   Ev.netRecv s, Ev.register cid, Ev.spawnReader cid])

/-- What `self.server_socket.accept()` yields in one iteration of the accept
loop: a timeout, or an accepted client with its remote address, the outcome of
`recv(1024).decode()` (`none` when it raises) and of the reply `send`. -/
inductive AcceptNet where
  | timeout
  | arr (addr : String) (recvStr : Option String) (sendOk : Bool)
deriving DecidableEq, Repr

/-- Outcome of one iteration of a loop body. -/
inductive LoopOut where
  | contin
  | stop
deriving DecidableEq, Repr

/-- One iteration of `ChatPeer.accept_connections`.  The `running` flag is
read once, at the top of the `while`; `flip` says whether a concurrent
shutdown clears the flag right after `accept` returns — the body never reads
the flag again, so `flip` cannot influence what the body does, which is
exactly the behaviour under scrutiny in the temporal claims.  `socket.timeout`
is caught and retried; any other exception (in particular `int(...)` raising
`ValueError` on a malformed handshake payload) is caught by the final
`except`, which logs and lets the loop continue. -/
def accept_step (st : State) (net : AcceptNet) (flip : Bool) :
    Except Unit (State × LoopOut × List Ev) :=
  if !st.running then Except.ok (st, LoopOut.stop, [])
  else
    match net with
    | AcceptNet.timeout => Except.ok (st, LoopOut.contin, [])
    | AcceptNet.arr addr recvStr sendOk =>
        let s := st.nextSock
        let st1 : State := { st with nextSock := s + 1, running := !flip }
        match recvStr with
        | none =>
            Except.ok (st1, LoopOut.contin, [Ev.acceptRet s, Ev.netRecv s])
        | some str =>
            match pyInt str with
            | none =>
                Except.ok (st1, LoopOut.contin, [Ev.acceptRet s, Ev.netRecv s])
            | some theirPort =>
                if !sendOk then
                  Except.ok (st1, LoopOut.contin,
                    [Ev.acceptRet s, Ev.netRecv s, Ev.netSend s])
                else if st1.lockHeld then Except.error ()
                else
                  let cid := st1.connection_counter + 1
                  Except.ok ({ st1 with
                      connection_counter := cid,
                      connections :=
                        st1.connections ++ [(cid, ⟨s, addr, theirPort⟩)] },
                    LoopOut.contin,
                    [Ev.acceptRet s, Ev.netRecv s, Ev.netSend s,
                     Ev.register cid, Ev.spawnReader cid])

/-- Embedding of `ChatPeer.handle_shutdown`.  Python semantics of the teardown loop: the
statement `socket, addr, port = self.connections[conn_id]` rebinds the local
name `socket` (shadowing the imported module), so `socket.SHUT_RDWR` is an
attribute lookup on the socket *object*; socket objects have no `SHUT_RDWR`
attribute, so it raises `AttributeError`, the `except Exception: pass`
swallows it, and `socket.close()` on the line below is never reached.
`del self.connections[conn_id]` still runs for every id.  The later
`self.server_socket.shutdown(socket.SHUT_RDWR)` fails the same way (or with
`UnboundLocalError` when the table was empty), is swallowed, and
`self.server_socket.close()` then runs.  `sys.exit(0)` ends the process
cleanly.  Net effect: every table entry is removed, no connection socket is
closed, the listening socket is closed, no error escapes. -/
def handle_shutdown (st : State) : Except Unit (State × List Ev) :=
  let st0 : State := { st with running := false }
  if st0.lockHeld then Except.error ()
  else
    Except.ok ({ st0 with
      connections := [], serverOpen := false, lockHeld := false }, [])

/-- The connection ids assigned (registered) during a list of events. -/
def regIds (evs : List Ev) : List Nat :=
  evs.filterMap (fun e => match e with | Ev.register i => some i | _ => none)

/-- One completed operation of the peer: an iteration of the accept loop, a
dial, a terminate command, a disconnect, a send, or the shutdown routine.
Operations that block forever (`Except.error`) produce no step. -/
inductive Step : State → State → List Ev → Prop where
  | accept (st st' : State) (net : AcceptNet) (flip : Bool) (out : LoopOut)
      (evs : List Ev) :
      accept_step st net flip = Except.ok (st', out, evs) → Step st st' evs
  | dial (st st' : State) (ip : String) (port : Nat) (net : DialNet) (r : Bool)
      (evs : List Ev) :
      connect_to_peer st ip port net = Except.ok (st', r, evs) → Step st st' evs
  | term (st st' : State) (cid : Nat) (r : Bool) (evs : List Ev) :
      terminate_connection st cid = Except.ok (st', r, evs) → Step st st' evs
  | disc (st st' : State) (cid : Nat) (evs : List Ev) :
      handle_disconnect st cid = Except.ok (st', evs) → Step st st' evs
  | send (st st' : State) (cid : Nat) (msg : Msg) (sendOk r : Bool)
      (evs : List Ev) :
      send_message st cid msg sendOk = Except.ok (st', r, evs) → Step st st' evs
  | shutdown (st st' : State) (evs : List Ev) :
      handle_shutdown st = Except.ok (st', evs) → Step st st' evs

/-- States reachable from a freshly constructed peer, together with the
chronological list of connection ids assigned along the way. -/
inductive ReachableT : State → List Nat → Prop where
  | init (port : Nat) (myAddr : String) : ReachableT (initState port myAddr) []
  | step (st st' : State) (ids : List Nat) (evs : List Ev) :
      ReachableT st ids → Step st st' evs → ReachableT st' (ids ++ regIds evs)

/-- Well-formedness of the connection table: distinct ids and distinct socket
handles across entries, every entry a socket that was allocated and not
closed, and every id positive and bounded by the id counter. -/
def TableOK (st : State) : Prop :=
  st.connections.Pairwise (fun p q => p.1 ≠ q.1 ∧ p.2.sock ≠ q.2.sock) ∧
  ∀ p ∈ st.connections, p.2.sock < st.nextSock ∧ p.2.sock ∉ st.closedSocks ∧
    1 ≤ p.1 ∧ p.1 ≤ st.connection_counter

/-- Inductive invariant carried through the step relation. -/
def Inv (st : State) (ids : List Nat) : Prop :=
  TableOK st ∧ st.lockHeld = false ∧
  (∀ s ∈ st.closedSocks, s < st.nextSock) ∧
  List.Chain' (· < ·) ids ∧ (∀ i ∈ ids, 1 ≤ i ∧ i ≤ st.connection_counter)

/-- A concrete peer state with one registered connection (id 1, socket handle
0, remote 10.0.0.2 advertising port 5000), used as a test input. -/
def stOne : State :=
  { initState 4000 "10.0.0.1" with
    connections := [(1, ⟨0, "10.0.0.2", 5000⟩)]
    connection_counter := 1
    nextSock := 1 }

/-- A message of 51 copies of code point 233 (é): 51 characters, 102 UTF-8
bytes. -/
def msg51wide : Msg := List.replicate 51 233

/-- A message of 100 copies of code point 233 (é): 100 characters, 200 UTF-8
bytes. -/
def msg100wide : Msg := List.replicate 100 233

/-! ## Helper lemmas about the table operations -/

theorem lookupConn_mem {t : Table} {k : Nat} {c : Conn}
    (h : lookupConn t k = some c) : (k, c) ∈ t := by
  induction t with
  | nil => exact absurd h (by simp [lookupConn])
  | cons p rest ih =>
    obtain ⟨i, c0⟩ := p
    simp only [lookupConn] at h
    split at h
    · next hik =>
        injection h with h
        subst hik; subst h
        exact List.mem_cons_self _ _
    · exact List.mem_cons_of_mem _ (ih h)

theorem mem_delConn {t : Table} {k : Nat} {p : Nat × Conn}
    (h : p ∈ delConn t k) : p ∈ t ∧ p.1 ≠ k := by
  have := List.mem_filter.mp h
  refine ⟨this.1, ?_⟩
  simpa using this.2

theorem lookupConn_delConn_self (t : Table) (k : Nat) :
    lookupConn (delConn t k) k = none := by
  induction t with
  | nil => rfl
  | cons p rest ih =>
    obtain ⟨i, c0⟩ := p
    simp only [delConn, List.filter_cons] at *
    by_cases hik : i = k
    · simpa [hik] using ih
    · simpa [hik, lookupConn] using ih

/-! ## C1: shutdown -/

/-- C1 claims that shutdown closes every live connection's socket, removes
every entry, closes the listening socket and surfaces no error.  The code
does empty the table, close the listening socket and surface no error — but
it closes no connection socket: the loop locals shadow the `socket` module,
`socket.SHUT_RDWR` raises `AttributeError` on the socket object, the blanket
`except` swallows it and `socket.close()` is never reached.  From `stOne`
(one live connection on socket handle 0), shutdown leaves `closedSocks`
empty even though the table was nonempty. -/
theorem handle_shutdown_does_not_close_sockets :
    ∃ st1, handle_shutdown stOne = Except.ok (st1, []) ∧
      st1.connections = [] ∧ st1.serverOpen = false ∧ st1.running = false ∧
      st1.closedSocks = [] ∧ stOne.connections ≠ [] := by
  exact ⟨_, rfl, rfl, rfl, rfl, rfl, by decide⟩

/-! ## C2: send failure teardown -/

/-- C2 claims that when the underlying write fails, `send_message` tears the
connection down via `handle_disconnect` and returns failure.  In the code the
except block calls `handle_disconnect` while `send_message` still holds the
non-reentrant `threading.Lock`, so the inner `with self.lock:` blocks
forever: the call never returns, performs no teardown and reports nothing. -/
theorem send_message_write_failure_deadlocks :
    send_message stOne 1 [104, 105] false = Except.error () := by rfl

/-! ## C4: the length cap -/

/-- C4 counterexample: a message of 51 é characters has UTF-8 encoded length
102 > 100, yet `send_message` does not reject it — on `stOne` it reaches the
table lookup and performs the network write on socket 0, because the code
compares `len(message)` (a character count), not the encoded byte length. -/
theorem send_message_ignores_encoded_length :
    100 < utf8Len msg51wide ∧
    send_message stOne 1 msg51wide true =
      Except.ok (stOne, true, [Ev.netSend 0]) := by
  exact ⟨by decide, rfl⟩

/-- C4 amended: for every message whose character count exceeds 100 and every
connection id (present in the table or not), `send_message` rejects the
message and returns failure with the state unchanged and no I/O event — in
particular before any table lookup outcome matters and before any network
write. -/
theorem send_message_rejects_over_100_chars (st : State) (cid : Nat)
    (msg : Msg) (sendOk : Bool) (h : 100 < msg.length) :
    send_message st cid msg sendOk = Except.ok (st, false, []) := by
  simp [send_message, h]

/-- Witness for the amended C4: a 101-character message to the absent id 999
is rejected with no effect. -/
theorem send_message_rejects_over_100_chars_witness :
    send_message stOne 999 (List.replicate 101 97) true =
      Except.ok (stOne, false, []) :=
  send_message_rejects_over_100_chars stOne 999 (List.replicate 101 97) true
    (by decide)

/-! ## C10: the cap is strict and counts characters -/

/-- C10: a message of exactly 100 characters is not rejected by the length
check: for any state and any id bound to a record `c`, `send_message`
proceeds to the table lookup and performs the network write on that record's
socket, whatever the UTF-8 encoded length of the message — the check
compares the character count, not the byte length. -/
theorem send_message_cap_strict_per_char (st : State) (cid : Nat) (c : Conn)
    (msg : Msg) (hl : st.lockHeld = false)
    (hc : lookupConn st.connections cid = some c) (hm : msg.length = 100) :
    send_message st cid msg true = Except.ok (st, true, [Ev.netSend c.sock]) := by
  simp [send_message, hm, hl, hc]

/-- Witness for C10: 100 é characters, 200 bytes once UTF-8 encoded, are sent
on connection 1 of `stOne`. -/
theorem send_message_cap_strict_per_char_witness :
    utf8Len msg100wide = 200 ∧
    send_message stOne 1 msg100wide true =
      Except.ok (stOne, true, [Ev.netSend 0]) := by
  refine ⟨by decide, send_message_cap_strict_per_char stOne 1
    ⟨0, "10.0.0.2", 5000⟩ msg100wide rfl rfl (by decide)⟩

/-! ## C7: terminate exactly once -/

/-- C7: for an id present in the table, `terminate_connection` closes that
connection's socket and removes the entry, returning success; a second call
on the same id finds nothing, returns failure, performs no socket operation
(its event list is empty) and leaves the state unchanged. -/
theorem terminate_twice (st : State) (cid : Nat) (c : Conn)
    (hl : st.lockHeld = false) (hc : lookupConn st.connections cid = some c) :
    ∃ st1,
      terminate_connection st cid =
        Except.ok (st1, true, [Ev.sockClose c.sock]) ∧
      st1.connections = delConn st.connections cid ∧
      st1.closedSocks = c.sock :: st.closedSocks ∧
      lookupConn st1.connections cid = none ∧
      terminate_connection st1 cid = Except.ok (st1, false, []) := by
  refine ⟨{ st with closedSocks := c.sock :: st.closedSocks, connections := delConn st.connections cid }, ?_, rfl, rfl, ?_, ?_⟩
  · simp [terminate_connection, hl, hc]
  · exact lookupConn_delConn_self _ _
  · simp [terminate_connection, hl, lookupConn_delConn_self]

/-- Witness for C7 on the concrete state `stOne`. -/
theorem terminate_twice_witness :
    ∃ st1,
      terminate_connection stOne 1 = Except.ok (st1, true, [Ev.sockClose 0]) ∧
      st1.connections = delConn stOne.connections 1 ∧
      st1.closedSocks = 0 :: stOne.closedSocks ∧
      lookupConn st1.connections 1 = none ∧
      terminate_connection st1 1 = Except.ok (st1, false, []) :=
  terminate_twice stOne 1 ⟨0, "10.0.0.2", 5000⟩ rfl rfl

/-! ## C9: malformed handshake payload -/

/-- C9: when the handshake payload of an accepted inbound connection does not
decode as an integer, the accept loop treats it as non-fatal: no table entry
is created, no reader is spawned (the accepted socket is not kept in use),
nothing is closed behind the loop's back, and the loop continues. -/
theorem accept_bad_handshake_drops_and_continues (st : State) (a str : String)
    (sendOk flip : Bool) (hr : st.running = true) (hp : pyInt str = none) :
    accept_step st (AcceptNet.arr a (some str) sendOk) flip =
      Except.ok ({ st with nextSock := st.nextSock + 1, running := !flip },
        LoopOut.contin, [Ev.acceptRet st.nextSock, Ev.netRecv st.nextSock]) := by
  simp [accept_step, hr, hp]

/-- Witness for C9: the payload "abc" is rejected by `int(...)` and the
connection attempt is dropped while the loop continues. -/
theorem accept_bad_handshake_witness :
    accept_step stOne (AcceptNet.arr "10.0.0.3" (some "abc") true) false =
      Except.ok ({ stOne with nextSock := 2, running := true },
        LoopOut.contin, [Ev.acceptRet 1, Ev.netRecv 1]) :=
  accept_bad_handshake_drops_and_continues stOne "10.0.0.3" "abc" true false
    rfl (by decide)

/-! ## C3: no registration after the flag clears -/

/-- C3 counterexample: start from a fresh peer, let `accept` return a client
socket and immediately afterwards let a concurrent shutdown clear the
`running` flag (`flip := true`).  The loop body never re-reads the flag: the
handshake completes, connection 1 is registered — visible in the final state,
whose flag is false — and the accepted socket (handle 0) is never closed.
This refutes the claim that no record is inserted after the flag is false and
that an in-flight accepted socket is closed without use. -/
theorem accept_registers_after_flag_cleared :
    ∃ st1 evs,
      accept_step (initState 4000 "10.0.0.1")
          (AcceptNet.arr "10.0.0.2" (some "5000") true) true =
        Except.ok (st1, LoopOut.contin, evs) ∧
      st1.running = false ∧
      Ev.register 1 ∈ evs ∧
      lookupConn st1.connections 1 = some ⟨0, "10.0.0.2", 5000⟩ ∧
      Ev.sockClose 0 ∉ evs := by
  refine ⟨{ initState 4000 "10.0.0.1" with
      nextSock := 1
      running := false
      connection_counter := 1
      connections := [(1, ⟨0, "10.0.0.2", 5000⟩)] },
    [Ev.acceptRet 0, Ev.netRecv 0, Ev.netSend 0, Ev.register 1,
     Ev.spawnReader 1], ?_, rfl, ?_, rfl, ?_⟩
  · rfl
  · decide
  · decide

/-- C3 amended: the accept loop reads the `running` flag only at the loop
head.  If the flag is false there, the iteration stops without accepting,
handshaking or registering anything; but the code never re-checks the flag
after `accept` returns, so a client socket from an in-flight accept is still
handshaked and registered (and not closed) even when the flag was cleared
meanwhile. -/
theorem accept_stops_only_at_loop_head (st : State) (net : AcceptNet)
    (flip : Bool) (h : st.running = false) :
    accept_step st net flip = Except.ok (st, LoopOut.stop, []) := by
  simp [accept_step, h]

/-- Witness for the amended C3: with the flag already false, the iteration
stops and has no effect. -/
theorem accept_stops_only_at_loop_head_witness :
    accept_step { stOne with running := false }
        (AcceptNet.arr "10.0.0.2" (some "5000") true) false =
      Except.ok ({ stOne with running := false }, LoopOut.stop, []) :=
  accept_stops_only_at_loop_head _ _ _ rfl

/-! ## C5: dial-time validation order -/

/-- C5: the dialer's three validations (IPv4 syntax, self-connection,
duplicate) run before the socket connect: an address failing `inet_aton`
yields failure with the state unchanged and no I/O event at all (no socket
creation, no table entry); and whenever a connect is attempted (a
`connectTry` event exists), all three validations had passed. -/
theorem connect_checks_before_socket (st : State) (ip : String) (port : Nat)
    (net : DialNet) :
    (inet_aton_ok ip = false →
      connect_to_peer st ip port net = Except.ok (st, false, [])) ∧
    (∀ st1 r evs, connect_to_peer st ip port net = Except.ok (st1, r, evs) →
      Ev.connectTry ip port ∈ evs →
      inet_aton_ok ip = true ∧
      (ip == st.myAddr && port == st.myPort) = false ∧
      (st.connections.any fun p => p.2.addr == ip && p.2.port == port) = false) := by
  constructor
  · intro h; simp [connect_to_peer, h]
  · intro st1 r evs heq hmem
    by_cases h1 : inet_aton_ok ip = true
    · by_cases h2 : (ip == st.myAddr && port == st.myPort) = true
      · simp [connect_to_peer, h1, h2] at heq
        rcases heq with ⟨-, -, hevs⟩
        rw [hevs] at hmem
        simp at hmem
      · by_cases h3 :
          (st.connections.any fun p => p.2.addr == ip && p.2.port == port) = true
        · simp [connect_to_peer, h1, h2, h3] at heq
          rcases heq with ⟨-, -, hevs⟩
          rw [hevs] at hmem
          simp at hmem
        · exact ⟨h1, by simpa using h2, by simpa using h3⟩
    · rw [Bool.not_eq_true] at h1
      simp [connect_to_peer, h1] at heq
      rcases heq with ⟨-, -, hevs⟩
      rw [hevs] at hmem
      simp at hmem

/-- Witness for C5: dialing the syntactically invalid address 300.1.2.3 fails
with no socket, no connect attempt and no table entry. -/
theorem connect_checks_before_socket_witness :
    connect_to_peer stOne "300.1.2.3" 6000 ⟨true, true, some "1"⟩ =
      Except.ok (stOne, false, []) :=
  (connect_checks_before_socket stOne "300.1.2.3" 6000 _).1 (by decide)

/-! ## C6: dial-time socket errors -/

/-- C6: any socket error during the dialer's connect or handshake (the
connect raising, the handshake send raising, or the handshake recv raising)
makes `connect_to_peer` return failure with the connection table and the id
counter unchanged: no record, no partial registration. -/
theorem connect_error_no_partial_registration (st : State) (ip : String)
    (port : Nat) (net : DialNet)
    (h : net.connectOk = false ∨ net.sendOk = false ∨ net.recvStr = none) :
    ∃ st1 evs, connect_to_peer st ip port net = Except.ok (st1, false, evs) ∧
      st1.connections = st.connections ∧
      st1.connection_counter = st.connection_counter := by
  by_cases h1 : inet_aton_ok ip = true
  · by_cases h2 : (ip == st.myAddr && port == st.myPort) = true
    · exact ⟨st, [], by simp [connect_to_peer, h1, h2], rfl, rfl⟩
    · by_cases h3 :
        (st.connections.any fun p => p.2.addr == ip && p.2.port == port) = true
      · exact ⟨st, [], by simp [connect_to_peer, h1, h2, h3], rfl, rfl⟩
      · by_cases h4 : net.connectOk = true
        · by_cases h5 : net.sendOk = true
          · have h6 : net.recvStr = none := by
              rcases h with h | h | h
              · rw [h4] at h; cases h
              · rw [h5] at h; cases h
              · exact h
            exact ⟨{ st with nextSock := st.nextSock + 1 },
              [Ev.sockCreate st.nextSock, Ev.connectTry ip port,
               Ev.netSend st.nextSock, Ev.netRecv st.nextSock],
              by simp [connect_to_peer, h1, h2, h3, h4, h5, h6], rfl, rfl⟩
          · rw [Bool.not_eq_true] at h5
            exact ⟨{ st with nextSock := st.nextSock + 1 },
              [Ev.sockCreate st.nextSock, Ev.connectTry ip port,
               Ev.netSend st.nextSock],
              by simp [connect_to_peer, h1, h2, h3, h4, h5], rfl, rfl⟩
        · rw [Bool.not_eq_true] at h4
          exact ⟨{ st with nextSock := st.nextSock + 1 },
            [Ev.sockCreate st.nextSock, Ev.connectTry ip port],
            by simp [connect_to_peer, h1, h2, h3, h4], rfl, rfl⟩
  · rw [Bool.not_eq_true] at h1
    exact ⟨st, [], by simp [connect_to_peer, h1], rfl, rfl⟩

/-- Witness for C6: a dial whose connect raises leaves the table of `stOne`
unchanged and reports failure. -/
theorem connect_error_no_partial_registration_witness :
    ∃ st1 evs,
      connect_to_peer stOne "10.0.0.3" 6000 ⟨false, true, some "1"⟩ =
        Except.ok (st1, false, evs) ∧
      st1.connections = stOne.connections ∧
      st1.connection_counter = stOne.connection_counter :=
  connect_error_no_partial_registration stOne "10.0.0.3" 6000 _ (Or.inl rfl)

/-! ## C8: global table invariant and id discipline -/

/-- Any successful step either leaves the table, counter and closed set
unchanged (allocating at most fresh socket handles), or registers one fresh
record under the next id, or closes one looked-up record's socket while
deleting its entry in the same operation, or empties the table (shutdown). -/
theorem step_shape {st st' : State} {evs : List Ev}
    (h : Step st st' evs) (hl : st.lockHeld = false) :
    (st'.connections = st.connections ∧
      st'.connection_counter = st.connection_counter ∧
      st'.closedSocks = st.closedSocks ∧ st.nextSock ≤ st'.nextSock ∧
      regIds evs = [] ∧ st'.lockHeld = false) ∨
    (∃ a p, st'.connections =
        st.connections ++ [(st.connection_counter + 1, ⟨st.nextSock, a, p⟩)] ∧
      st'.connection_counter = st.connection_counter + 1 ∧
      st'.closedSocks = st.closedSocks ∧ st'.nextSock = st.nextSock + 1 ∧
      regIds evs = [st.connection_counter + 1] ∧ st'.lockHeld = false) ∨
    (∃ cid c, lookupConn st.connections cid = some c ∧
      st'.connections = delConn st.connections cid ∧
      st'.connection_counter = st.connection_counter ∧
      st'.closedSocks = c.sock :: st.closedSocks ∧
      st'.nextSock = st.nextSock ∧ regIds evs = [] ∧
      st'.lockHeld = false) ∨
    (st'.connections = [] ∧ st'.connection_counter = st.connection_counter ∧
      st'.closedSocks = st.closedSocks ∧ st'.nextSock = st.nextSock ∧
      regIds evs = [] ∧ st'.lockHeld = false) := by
  cases h <;> rename_i heq <;>
    simp only [accept_step, connect_to_peer, terminate_connection,
      handle_disconnect, send_message, handle_shutdown] at heq <;>
    (repeat' split at heq)
  all_goals
    first
    | (simp only [Except.ok.injEq, Prod.mk.injEq] at heq
       obtain ⟨rfl, -, rfl⟩ := heq
       first
       | exact Or.inl ⟨rfl, rfl, rfl,
           (by first | exact Nat.le_refl _ | exact Nat.le_succ _), rfl, hl⟩
       | exact Or.inr (Or.inl ⟨_, _, rfl, rfl, rfl, rfl, rfl, hl⟩)
       | exact Or.inr (Or.inr (Or.inl
           ⟨_, _, by assumption, rfl, rfl, rfl, rfl, rfl, hl⟩))
       | exact Or.inr (Or.inr (Or.inr ⟨rfl, rfl, rfl, rfl, rfl, rfl⟩)))
    | simp_all [handle_disconnect]

/-- The invariant `Inv` is preserved by every step. -/
theorem inv_step {st st' : State} {ids : List Nat} {evs : List Ev}
    (hI : Inv st ids) (h : Step st st' evs) : Inv st' (ids ++ regIds evs) := by
  obtain ⟨⟨hpw, hmem⟩, hl, hcl, hch, hbd⟩ := hI
  rcases step_shape h hl with
      ⟨hc, hn, hcs, hns, hr, hlh⟩ | ⟨a, p, hc, hn, hcs, hns, hr, hlh⟩ |
      ⟨cid, c, hlook, hc, hn, hcs, hns, hr, hlh⟩ | ⟨hc, hn, hcs, hns, hr, hlh⟩
  · rw [hr, List.append_nil]
    refine ⟨⟨by rw [hc]; exact hpw, ?_⟩, hlh, ?_, hch, ?_⟩
    · intro q hq
      rw [hc] at hq
      obtain ⟨h1, h2, h3, h4⟩ := hmem q hq
      exact ⟨Nat.lt_of_lt_of_le h1 hns, by rw [hcs]; exact h2, h3,
        by rw [hn]; exact h4⟩
    · intro s hs
      rw [hcs] at hs
      exact Nat.lt_of_lt_of_le (hcl s hs) hns
    · intro i hi
      obtain ⟨h1, h2⟩ := hbd i hi
      exact ⟨h1, by rw [hn]; exact h2⟩
  · refine ⟨⟨?_, ?_⟩, hlh, ?_, ?_, ?_⟩
    · rw [hc, List.pairwise_append]
      refine ⟨hpw, List.pairwise_singleton _ _, ?_⟩
      intro q hq b hb
      simp only [List.mem_singleton] at hb
      subst hb
      obtain ⟨h1, -, -, h4⟩ := hmem q hq
      exact ⟨by omega, by simp; omega⟩
    · intro q hq
      rw [hc] at hq
      rcases List.mem_append.mp hq with hq | hq
      · obtain ⟨h1, h2, h3, h4⟩ := hmem q hq
        exact ⟨by omega, by rw [hcs]; exact h2, h3, by omega⟩
      · simp only [List.mem_singleton] at hq
        subst hq
        refine ⟨by simp; omega, ?_, by simp, by simp; omega⟩
        rw [hcs]
        intro hin
        exact absurd (hcl _ hin) (by simp)
    · intro s hs
      rw [hcs] at hs
      rw [hns]
      exact Nat.lt_succ_of_lt (hcl s hs)
    · rw [hr, List.chain'_append]
      refine ⟨hch, List.chain'_singleton _, ?_⟩
      intro x hx y hy
      simp only [List.head?_cons, Option.mem_some_iff] at hy
      subst hy
      have := hbd x (List.mem_of_mem_getLast? hx)
      omega
    · intro i hi
      rw [hr] at hi
      rcases List.mem_append.mp hi with hi | hi
      · obtain ⟨h1, h2⟩ := hbd i hi
        exact ⟨h1, by omega⟩
      · simp only [List.mem_singleton] at hi
        subst hi
        exact ⟨by omega, by omega⟩
  · rw [hr, List.append_nil]
    have hmemc : (cid, c) ∈ st.connections := lookupConn_mem hlook
    refine ⟨⟨?_, ?_⟩, hlh, ?_, hch, ?_⟩
    · rw [hc]
      exact List.Pairwise.sublist (List.filter_sublist _) hpw
    · intro q hq
      rw [hc] at hq
      obtain ⟨hq1, hq2⟩ := mem_delConn hq
      obtain ⟨h1, h2, h3, h4⟩ := hmem q hq1
      refine ⟨by rw [hns]; exact h1, ?_, h3, by rw [hn]; exact h4⟩
      rw [hcs]
      intro hin
      rcases List.mem_cons.mp hin with hin | hin
      · have hsym :
            Symmetric (fun (x y : Nat × Conn) => x.1 ≠ y.1 ∧ x.2.sock ≠ y.2.sock) :=
          fun x y hxy => ⟨hxy.1.symm, hxy.2.symm⟩
        have hqne : q ≠ (cid, c) := fun he => hq2 (by rw [he])
        exact (hpw.forall hsym hq1 hmemc hqne).2 hin
      · exact h2 hin
    · intro s hs
      rw [hcs] at hs
      rcases List.mem_cons.mp hs with hs | hs
      · rw [hns, hs]
        exact (hmem _ hmemc).1
      · rw [hns]
        exact hcl s hs
    · intro i hi
      obtain ⟨h1, h2⟩ := hbd i hi
      exact ⟨h1, by rw [hn]; exact h2⟩
  · rw [hr, List.append_nil]
    refine ⟨⟨by rw [hc]; exact List.Pairwise.nil, ?_⟩, hlh, ?_, hch, ?_⟩
    · intro q hq
      rw [hc] at hq
      simp at hq
    · intro s hs
      rw [hcs] at hs
      rw [hns]
      exact hcl s hs
    · intro i hi
      obtain ⟨h1, h2⟩ := hbd i hi
      exact ⟨h1, by rw [hn]; exact h2⟩

/-- Every reachable state satisfies the invariant. -/
theorem reachable_inv {st : State} {ids : List Nat} (h : ReachableT st ids) :
    Inv st ids := by
  induction h with
  | init port myAddr =>
      refine ⟨⟨List.Pairwise.nil, ?_⟩, rfl, ?_, List.chain'_nil, ?_⟩
      · intro q hq
        simp [initState] at hq
      · intro s hs
        simp [initState] at hs
      · intro i hi
        simp at hi
  | step st st' ids evs hre hstep ih => exact inv_step ih hstep

/-- C8: in every reachable state, every live entry of the connection table
references an open socket — one that was allocated and never closed; closing
a socket and removing its entry happen in the same guarded operation
(`step_shape`: the only steps that close a table socket also delete its
entry) — table ids are distinct, and the chronological sequence of assigned
connection ids is strictly increasing: unique, monotone, never reused. -/
theorem reachable_table_invariant (st : State) (ids : List Nat)
    (h : ReachableT st ids) :
    (∀ p ∈ st.connections, p.2.sock < st.nextSock ∧
      p.2.sock ∉ st.closedSocks) ∧
    (st.connections.map Prod.fst).Nodup ∧
    List.Chain' (· < ·) ids := by
  obtain ⟨⟨hpw, hmem⟩, -, -, hch, -⟩ := reachable_inv h
  refine ⟨fun p hp => ⟨(hmem p hp).1, (hmem p hp).2.1⟩, ?_, hch⟩
  rw [List.Nodup, List.pairwise_map]
  exact hpw.imp (fun hx => hx.1)

/-- Witness for C8: the state reached from a fresh peer by one successful
outbound dial (which registers connection 1) satisfies the invariant. -/
theorem reachable_table_invariant_witness :
    (∀ p ∈ stOne.connections, p.2.sock < stOne.nextSock ∧
      p.2.sock ∉ stOne.closedSocks) ∧
    (stOne.connections.map Prod.fst).Nodup ∧
    List.Chain' (· < ·) [1] :=
  reachable_table_invariant stOne [1]
    (ReachableT.step _ _ [] _ (ReachableT.init 4000 "10.0.0.1")
      (Step.dial _ _ "10.0.0.2" 7000 ⟨true, true, some "5000"⟩ true
        [Ev.sockCreate 0, Ev.connectTry "10.0.0.2" 7000, Ev.netSend 0,
         Ev.netRecv 0, Ev.register 1, Ev.spawnReader 1] rfl))

end LanChat
